import Mathlib

/-
Verification of the file-intake-and-transfer state machine of the
sl-file-dropzone component (file-dropzone.ts).

The component keeps an ordered list of file records (`files`), a drop-zone
level `warning`, and configuration (`accept`, `maxFileSize`, `maxFiles`,
`url`).  Intake (`handleFiles` / `addFile`) validates candidates, enforces
the capacity rule, and — when a url is configured — starts an upload
(`uploadFile`).  The transfer callbacks (`updateTransferProgress`,
`onTransferComplete`, `onTransferError`, `onTransferAbort`) mutate the per
file record and emit events; `handleFileRemove` removes a record, aborting
an in-flight transfer first.  All of this is pure state transformation in
reaction to discrete events, so it is embedded as functions from state to
state paired with the list of emitted events.
-/

set_option autoImplicit false

namespace FileDropzone

/-- A candidate file as the browser hands it over: name, byte size and
media type. -/
structure JsFile where
  name : String
  size : Nat
  type : String
deriving DecidableEq, Repr

/-- A DOM ProgressEvent as seen by the transfer callbacks: whether the
total length is computable, and the loaded/total byte counts.  JS numbers
are embedded as rationals. -/
structure ProgressEv where
  lengthComputable : Bool
  loaded : ℚ
  total : ℚ
deriving DecidableEq, Repr

/-- One entry of the queue (interface FileInfo of library.ts as used by
file-dropzone.ts): the file plus the optional fields `accepted`,
`warning`, `loading`, `progress` and the `xhr` cancel handle.  Optional
TS fields become `Option`; `loading` is a truthiness test in the source,
so it is a `Bool` defaulting to false.  The XMLHttpRequest object itself
is opaque; only its presence matters, so `xhr : Option Unit`. -/
structure FileInfo where
  file : JsFile
  accepted : Option Bool := none
  warning : Option String := none
  loading : Bool := false
  progress : Option ℚ := none
  xhr : Option Unit := none
deriving DecidableEq, Repr

/-- Modelled from the spec: the localization tables are consumed only as a
lookup-by-key string provider (spec section 1); the embedding keeps the
key itself as the resolved string, which keeps distinct keys distinct. -/
def localizeTerm (key : String) : String := key

/-- Modelled from the spec: library.ts (which holds hasValidFileType) is
not under src/.  Spec section 4.1: an accept pattern is either a file
extension pattern or a media-type pattern whose subtype may be a
wildcard. -/
inductive AcceptPattern where
  | ext (e : String)
  | media (category : String) (subtype : Option String)
deriving DecidableEq, Repr

/-- Modelled from the spec: a file matches an extension pattern when its
name ends with the extension, a media-type pattern when its type equals
category/subtype, and a wildcard-subtype pattern when its type starts
with category followed by a slash. -/
def matchesPattern (f : JsFile) : AcceptPattern → Bool
  | AcceptPattern.ext e => e.data.isSuffixOf f.name.data
  | AcceptPattern.media c none => (c ++ "/").data.isPrefixOf f.type.data
  | AcceptPattern.media c (some s) => f.type = c ++ "/" ++ s

/-- Modelled from the spec: the accept specification is either the
wildcard "accept everything" or a set of patterns (spec section 4.1). -/
inductive AcceptSpec where
  | wildcard
  | patterns (ps : List AcceptPattern)
deriving DecidableEq, Repr

/-- Modelled from the spec: a file passes if it matches at least one
pattern of the set; no patterns plus a non-wildcard spec means
reject-all (spec section 4.1). -/
def hasValidFileType (f : JsFile) : AcceptSpec → Bool
  | AcceptSpec.wildcard => true
  | AcceptSpec.patterns ps => ps.any (matchesPattern f)

/-- Modelled from the spec: passes unconditionally if maxBytes is unset,
otherwise requires file.size to be at most maxBytes (spec section 4.1). -/
def hasValidFileSize (f : JsFile) (maxFileSize : Option Nat) : Bool :=
  match maxFileSize with
  | none => true
  | some m => f.size ≤ m

/-- The events emitted by the component that the embedded operations can
produce, with their payloads (sl-change carries the raw file list,
sl-load the response body, sl-error and the transfer-side sl-abort the
ProgressEvent, and the removal-side sl-abort and sl-remove the
FileInfo). -/
inductive Event where
  | slChange (files : List JsFile)
  | slLoad (response : String)
  | slError (ev : ProgressEv)
  | slAbortEv (ev : ProgressEv)
  | slAbortFile (fi : FileInfo)
  | slRemove (fi : FileInfo)
deriving DecidableEq, Repr

/-- The component state and configuration relevant to intake, transfer
and removal (fields of SlFileDropzone, with their source defaults:
accept defaults to the wildcard, maxFiles to 1, url unset). -/
structure Dropzone where
  warning : Option String := none
  files : List FileInfo := []
  accept : AcceptSpec := AcceptSpec.wildcard
  maxFileSize : Option Nat := none
  maxFiles : Nat := 1
  url : Option String := none
deriving DecidableEq, Repr

/-- get multiple() of the source: maxFiles > 1. -/
def Dropzone.multiple (dz : Dropzone) : Bool := dz.maxFiles > 1

/-- updateTransferProgress (file-dropzone.ts lines 111-116): if the event
length is computable, set progress to loaded / total * 100; otherwise
leave the record unchanged.  The source applies no clamping. -/
def updateTransferProgress (ev : ProgressEv) (fi : FileInfo) : FileInfo :=
  if ev.lengthComputable then
    { fi with progress := some (ev.loaded / ev.total * 100) }
  else
    fi

/-- onTransferComplete (lines 118-131): always clears loading; on HTTP
status 200 emits sl-load with the response body; otherwise sets the
server-error warning, overwrites accepted to false, and emits sl-error
with the ProgressEvent. -/
def onTransferComplete (ev : ProgressEv) (status : Nat) (response : String)
    (fi : FileInfo) : FileInfo × List Event :=
  let fi1 : FileInfo := { fi with loading := false }
  if status = 200 then
    (fi1, [Event.slLoad response])
  else
    ({ fi1 with warning := some (localizeTerm "serverError"), accepted := some false },
     [Event.slError ev])

/-- onTransferError (lines 133-140): clears loading, sets the
transfer-error warning, overwrites accepted to false, emits sl-error. -/
def onTransferError (ev : ProgressEv) (fi : FileInfo) : FileInfo × List Event :=
  ({ fi with
      loading := false
      warning := some (localizeTerm "transferError")
      accepted := some false },
   [Event.slError ev])

/-- onTransferAbort (lines 142-149): clears loading, sets the
transfer-abort warning, overwrites accepted to false, emits sl-abort
with the ProgressEvent. -/
def onTransferAbort (ev : ProgressEv) (fi : FileInfo) : FileInfo × List Event :=
  ({ fi with
      loading := false
      warning := some (localizeTerm "transferAbort")
      accepted := some false },
   [Event.slAbortEv ev])

/-- uploadFile (lines 151-181) restricted to its effect on the record:
sets loading, resets progress to 0, and stores the xhr cancel handle.
The network send itself is external I/O with no further effect on the
record until a callback fires. -/
def uploadFile (fi : FileInfo) : FileInfo :=
  { fi with loading := true, progress := some 0, xhr := some () }

/-- addFile (lines 183-208): if maxFiles is truthy and the queue already
has maxFiles records, set the drop-zone warning to the max-files message
and stop.  Otherwise build a record, classify it (invalid type, then
invalid size, then accepted), insert it (append when multiple, replace
the whole list otherwise), and — whenever a url is configured — start
the upload for it, accepted or not.  Since uploadFile mutates the same
object that was just stored, the embedding applies the upload effect
before insertion. -/
def addFile (dz : Dropzone) (file : JsFile) : Dropzone :=
  if dz.maxFiles ≠ 0 ∧ dz.files.length ≥ dz.maxFiles then
    { dz with warning := some (localizeTerm "maxFiles") }
  else
    let base : FileInfo := { file := file }
    let validated : FileInfo :=
      if hasValidFileType file dz.accept = false then
        { base with accepted := some false,
                    warning := some (localizeTerm "fileTypeNotAccepted") }
      else if hasValidFileSize file dz.maxFileSize = false then
        { base with accepted := some false,
                    warning := some (localizeTerm "fileSizeExceeded") }
      else
        { base with accepted := some true }
    let fileInfo : FileInfo := if dz.url.isSome then uploadFile validated else validated
    { dz with files := if dz.multiple then dz.files ++ [fileInfo] else [fileInfo] }

/-- handleFiles (lines 210-224): a null or empty list returns at once
with no effect.  Otherwise the drop-zone warning is cleared; if not in
multiple mode and more than one candidate arrived, the warning is set to
the no-multiple-files message and the function returns WITHOUT emitting
sl-change.  Otherwise sl-change is emitted with the raw list and each
candidate is passed to addFile in order. -/
def handleFiles (dz : Dropzone) (fileList : Option (List JsFile)) :
    Dropzone × List Event :=
  match fileList with
  | none => (dz, [])
  | some files =>
    if files.length = 0 then
      (dz, [])
    else
      let dz1 : Dropzone := { dz with warning := none }
      if dz1.multiple = false ∧ files.length > 1 then
        ({ dz1 with warning := some (localizeTerm "noMultipleFiles") }, [])
      else
        (files.foldl addFile dz1, [Event.slChange files])

/-- handleFileRemove (lines 245-254): reads this.files[index]; when the
index is out of range that read yields undefined and the following
access fileInfo.loading throws a TypeError, embedded as the error
outcome.  In range: if the record is loading, request an abort on its
xhr handle when present (optional chaining) and emit sl-abort with the
record, else emit sl-remove with the record; then drop the record by
filtering out its index, which for an in-range index is eraseIdx.  The
returned Bool records whether an abort was actually requested on a
handle. -/
def handleFileRemove (dz : Dropzone) (index : Nat) :
    Except String (Dropzone × List Event × Bool) :=
  match dz.files.get? index with
  | none => Except.error "TypeError"
  | some fi =>
    if fi.loading then
      Except.ok ({ dz with files := dz.files.eraseIdx index },
        [Event.slAbortFile fi], fi.xhr.isSome)
    else
      Except.ok ({ dz with files := dz.files.eraseIdx index },
        [Event.slRemove fi], false)

/- Concrete fixtures used by the witnesses and counterexamples. -/

/-- A 1 KiB png file. -/
def aPng : JsFile := { name := "a.png", size := 1024, type := "image/png" }

/-- A second 1 KiB png file. -/
def bPng : JsFile := { name := "b.png", size := 1024, type := "image/png" }

/-- A 1 KiB plain-text file. -/
def bTxt : JsFile := { name := "b.txt", size := 1024, type := "text/plain" }

/-- A generic transport ProgressEvent payload. -/
def pev : ProgressEv := { lengthComputable := false, loaded := 0, total := 0 }

/-- A dropzone with the source defaults: maxFiles = 1, wildcard accept,
no url. -/
def dzSingle : Dropzone := {}

/-- A dropzone accepting only the png extension with an upload url
configured. -/
def dzPngUpload : Dropzone :=
  { accept := AcceptSpec.patterns [AcceptPattern.ext ".png"],
    url := some "https://upload.example" }

/-- An accepted record whose upload is in flight (loading with an xhr
handle). -/
def fiAccepted : FileInfo :=
  { file := aPng, accepted := some true, loading := true,
    progress := some 0, xhr := some () }

/-- A single-mode dropzone that already holds one accepted record. -/
def dzOne : Dropzone := { files := [{ file := aPng, accepted := some true }] }

/-- A dropzone holding one in-flight record. -/
def dzLoading : Dropzone := { files := [fiAccepted] }

/-- A ProgressEvent with computable length, 1 of 4 bytes loaded. -/
def pevQuarter : ProgressEv := { lengthComputable := true, loaded := 1, total := 4 }

/-- A ProgressEvent with computable length, 3 of 4 bytes loaded. -/
def pevThreeQuarter : ProgressEv := { lengthComputable := true, loaded := 3, total := 4 }

/-- A ProgressEvent reporting more bytes loaded than its total. -/
def pevOverrun : ProgressEv := { lengthComputable := true, loaded := 3, total := 2 }

/-- C10: calling handleFiles with a null or an empty candidate list changes
nothing: the state (queue and warning included) is returned unchanged and
no event is emitted — the early return happens before the warning reset. -/
theorem C10_empty_intake_is_noop (dz : Dropzone) :
    handleFiles dz none = (dz, []) ∧ handleFiles dz (some []) = (dz, []) :=
  ⟨rfl, rfl⟩

/-- C9: the completion callback of a transfer clears loading and
dispatches on the HTTP status: 200 emits sl-load carrying the response
body and leaves the record otherwise untouched (Completed); any other
status sets the server-error warning, marks the record not accepted, and
emits sl-error (Failed) — and in neither case is anything retried. -/
theorem C9_complete_dispatch_on_status (ev : ProgressEv) (status : Nat)
    (resp : String) (fi : FileInfo) :
    (status = 200 →
      onTransferComplete ev status resp fi =
        ({ fi with loading := false }, [Event.slLoad resp])) ∧
    (status ≠ 200 →
      onTransferComplete ev status resp fi =
        ({ fi with loading := false, warning := some (localizeTerm "serverError"), accepted := some false },
         [Event.slError ev])) := by
  constructor
  · intro h
    simp [onTransferComplete, h]
  · intro h
    simp [onTransferComplete, h]

/-- C9 witness: concrete completion callbacks with status 200 and 404. -/
theorem C9_complete_dispatch_on_status_witness :
    onTransferComplete pev 200 "ok" fiAccepted =
      ({ fiAccepted with loading := false }, [Event.slLoad "ok"]) ∧
    onTransferComplete pev 404 "ok" fiAccepted =
      ({ fiAccepted with loading := false, warning := some (localizeTerm "serverError"), accepted := some false },
       [Event.slError pev]) :=
  ⟨(C9_complete_dispatch_on_status pev 200 "ok" fiAccepted).1 rfl,
   (C9_complete_dispatch_on_status pev 404 "ok" fiAccepted).2 (by decide)⟩

/-- C8: removal at a valid index succeeds; when the record is in flight
(loading) an abort is requested on its cancel handle when present and
sl-abort is emitted instead of sl-remove, otherwise sl-remove is
emitted; in both cases the record is removed from the queue. -/
theorem C8_remove_aborts_inflight_else_removes (dz : Dropzone) (index : Nat)
    (h : index < dz.files.length) :
    ∃ events req,
      handleFileRemove dz index =
        Except.ok ({ dz with files := dz.files.eraseIdx index }, events, req) ∧
      ((dz.files.get ⟨index, h⟩).loading = true →
        events = [Event.slAbortFile (dz.files.get ⟨index, h⟩)] ∧
        req = (dz.files.get ⟨index, h⟩).xhr.isSome) ∧
      ((dz.files.get ⟨index, h⟩).loading = false →
        events = [Event.slRemove (dz.files.get ⟨index, h⟩)] ∧ req = false) := by
  have hg : dz.files.get? index = some (dz.files.get ⟨index, h⟩) :=
    List.get?_eq_get h
  by_cases hl : (dz.files.get ⟨index, h⟩).loading
  · refine ⟨[Event.slAbortFile (dz.files.get ⟨index, h⟩)],
      (dz.files.get ⟨index, h⟩).xhr.isSome, ?_, ?_, ?_⟩
    · have hl2 : dz.files[index].loading = true := by
        exact hl
      unfold handleFileRemove
      rw [hg]
      simp [hl2]
    · intro _
      exact ⟨rfl, rfl⟩
    · intro hf
      rw [hl] at hf
      exact absurd hf (by decide)
  · rw [Bool.not_eq_true] at hl
    refine ⟨[Event.slRemove (dz.files.get ⟨index, h⟩)], false, ?_, ?_, ?_⟩
    · have hl2 : dz.files[index].loading = false := by
        exact hl
      unfold handleFileRemove
      rw [hg]
      simp [hl2]
    · intro hf
      rw [hl] at hf
      exact absurd hf (by decide)
    · intro _
      exact ⟨rfl, rfl⟩

/-- C8 witness: removing index 0 of a queue holding one in-flight record. -/
theorem C8_remove_aborts_inflight_else_removes_witness :
    ∃ events req,
      handleFileRemove dzLoading 0 =
        Except.ok ({ dzLoading with files := dzLoading.files.eraseIdx 0 }, events, req) ∧
      ((dzLoading.files.get ⟨0, by decide⟩).loading = true →
        events = [Event.slAbortFile (dzLoading.files.get ⟨0, by decide⟩)] ∧
        req = (dzLoading.files.get ⟨0, by decide⟩).xhr.isSome) ∧
      ((dzLoading.files.get ⟨0, by decide⟩).loading = false →
        events = [Event.slRemove (dzLoading.files.get ⟨0, by decide⟩)] ∧ req = false) :=
  C8_remove_aborts_inflight_else_removes dzLoading 0 (by decide)

/-- C7 counterexample: after a successful completion the record is
terminal (loading = false) yet its xhr cancel handle is still present —
the source never clears fileInfo.xhr, refuting the claim that every
terminal transition clears the cancel handle. -/
theorem C7_counterexample :
    (onTransferComplete pev 200 "ok" (uploadFile { file := aPng })).1.loading = false ∧
    (onTransferComplete pev 200 "ok" (uploadFile { file := aPng })).1.xhr = some () ∧
    (onTransferComplete pev 200 "ok" (uploadFile { file := aPng })).1.xhr ≠ none := by
  refine ⟨rfl, rfl, by decide⟩

/-- C7 amended: every terminal transition (completion with any status,
transport error, abort) clears the loading flag atomically with the
state change, but the cancel handle (xhr) is never cleared — it keeps
whatever value it had before the transition. -/
theorem C7_terminal_clears_loading_keeps_handle (ev : ProgressEv) (status : Nat)
    (resp : String) (fi : FileInfo) :
    ((onTransferComplete ev status resp fi).1.loading = false ∧
     (onTransferComplete ev status resp fi).1.xhr = fi.xhr) ∧
    ((onTransferError ev fi).1.loading = false ∧
     (onTransferError ev fi).1.xhr = fi.xhr) ∧
    ((onTransferAbort ev fi).1.loading = false ∧
     (onTransferAbort ev fi).1.xhr = fi.xhr) := by
  refine ⟨⟨?_, ?_⟩, ⟨rfl, rfl⟩, ⟨rfl, rfl⟩⟩ <;>
    by_cases hs : status = 200 <;>
      simp [onTransferComplete, hs]

/-- C6 counterexample: a progress event reporting 3 loaded of total 2
stores progress 150, outside [0, 100] — the source applies no clamping. -/
theorem C6_counterexample :
    (updateTransferProgress pevOverrun fiAccepted).progress = some 150 ∧
    ¬ (150 : ℚ) ≤ 100 := by
  constructor
  · norm_num [updateTransferProgress, pevOverrun]
  · norm_num

/-- C6 amended: if the total is non-computable the progress is left
unchanged; otherwise progress is set to loaded / total * 100 with NO
clamping (it can leave [0, 100] when loaded exceeds total); and for a
fixed positive total the stored value is monotone in loaded, so within
one transfer it never decreases as long as the transport reports
non-decreasing loaded counts. -/
theorem C6_progress_formula_unclamped (ev1 ev2 : ProgressEv) (fi : FileInfo) :
    (ev1.lengthComputable = false → updateTransferProgress ev1 fi = fi) ∧
    (ev1.lengthComputable = true →
      (updateTransferProgress ev1 fi).progress = some (ev1.loaded / ev1.total * 100)) ∧
    (ev1.lengthComputable = true → ev2.lengthComputable = true →
      ev2.total = ev1.total → ev1.loaded ≤ ev2.loaded → 0 < ev1.total →
      ∃ p1 p2,
        (updateTransferProgress ev1 fi).progress = some p1 ∧
        (updateTransferProgress ev2 fi).progress = some p2 ∧ p1 ≤ p2) := by
  refine ⟨fun h => by simp [updateTransferProgress, h],
          fun h => by simp [updateTransferProgress, h],
          fun h1 h2 ht hl hpos =>
            ⟨ev1.loaded / ev1.total * 100, ev2.loaded / ev2.total * 100,
             by simp [updateTransferProgress, h1],
             by simp [updateTransferProgress, h2], ?_⟩⟩
  rw [ht]
  have hdiv : ev1.loaded / ev1.total ≤ ev2.loaded / ev1.total :=
    div_le_div_of_nonneg_right hl hpos.le
  exact mul_le_mul_of_nonneg_right hdiv (by norm_num)

/-- C6 witness: two computable progress events for the same transfer,
1 of 4 then 3 of 4 bytes, give monotone stored values. -/
theorem C6_progress_formula_unclamped_witness :
    ∃ p1 p2,
      (updateTransferProgress pevQuarter fiAccepted).progress = some p1 ∧
      (updateTransferProgress pevThreeQuarter fiAccepted).progress = some p2 ∧
      p1 ≤ p2 :=
  (C6_progress_formula_unclamped pevQuarter pevThreeQuarter fiAccepted).2.2
    rfl rfl rfl (by norm_num [pevQuarter, pevThreeQuarter]) (by norm_num [pevQuarter])

/-- C5 counterexample: a record accepted at intake has accepted = true,
but a transport error overwrites it to false — acceptance is NOT written
exactly once. -/
theorem C5_counterexample :
    fiAccepted.accepted = some true ∧
    (onTransferError pev fiAccepted).1.accepted = some false ∧
    (onTransferError pev fiAccepted).1.accepted ≠ fiAccepted.accepted := by
  refine ⟨rfl, rfl, by decide⟩

/-- C5 amended: acceptance is written during validation at intake and a
successful completion (status 200) leaves it unchanged, but a failed
completion (non-200), a transport error, or an abort each overwrite it
to false (rejected). -/
theorem C5_acceptance_overwritten_on_failure (ev : ProgressEv) (status : Nat)
    (resp : String) (fi : FileInfo) :
    ((onTransferComplete ev 200 resp fi).1.accepted = fi.accepted) ∧
    (status ≠ 200 → (onTransferComplete ev status resp fi).1.accepted = some false) ∧
    ((onTransferError ev fi).1.accepted = some false) ∧
    ((onTransferAbort ev fi).1.accepted = some false) := by
  refine ⟨rfl, fun h => by simp [onTransferComplete, h], rfl, rfl⟩

/-- C5 witness: the amended acceptance behavior at a concrete accepted
in-flight record, with the failed completion taken at status 500. -/
theorem C5_acceptance_overwritten_on_failure_witness :
    ((onTransferComplete pev 200 "ok" fiAccepted).1.accepted = fiAccepted.accepted) ∧
    ((500 : Nat) ≠ 200 →
      (onTransferComplete pev 500 "ok" fiAccepted).1.accepted = some false) ∧
    ((onTransferError pev fiAccepted).1.accepted = some false) ∧
    ((onTransferAbort pev fiAccepted).1.accepted = some false) :=
  C5_acceptance_overwritten_on_failure pev 500 "ok" fiAccepted

/-- C4 counterexample: removing index 0 of an empty queue is not a
harmless no-op — the source reads this.files[0] (undefined) and then
dereferences .loading, which throws; the embedding returns the error
outcome, not the unchanged-state, no-event success outcome. -/
theorem C4_counterexample :
    handleFileRemove dzSingle 0 = Except.error "TypeError" ∧
    handleFileRemove dzSingle 0 ≠ Except.ok (dzSingle, [], false) := by
  refine ⟨rfl, fun hc => ?_⟩
  rw [show handleFileRemove dzSingle 0 = Except.error "TypeError" from rfl] at hc
  exact Except.noConfusion hc

/-- C4 amended: for every index out of range of the current queue the
removal operation fails (a TypeError is thrown when the missing record
is dereferenced); it does not silently return none, and no event is
emitted because the failure happens before any emission. -/
theorem C4_out_of_range_remove_throws (dz : Dropzone) (index : Nat)
    (h : dz.files.length ≤ index) :
    handleFileRemove dz index = Except.error "TypeError" := by
  unfold handleFileRemove
  rw [List.get?_eq_none.2 h]

/-- C4 witness: removal at index 3 of the empty default dropzone. -/
theorem C4_out_of_range_remove_throws_witness :
    handleFileRemove dzSingle 3 = Except.error "TypeError" :=
  C4_out_of_range_remove_throws dzSingle 3 (by decide)

/-- C3 counterexample: in single mode a batch of two candidates adds no
record and sets the no-multiple-files warning, but the event list is
empty — sl-change does NOT fire, because the source returns before the
emit call. -/
theorem C3_counterexample :
    (handleFiles dzSingle (some [aPng, bPng])).2 = [] ∧
    (handleFiles dzSingle (some [aPng, bPng])).2 ≠ [Event.slChange [aPng, bPng]] ∧
    (handleFiles dzSingle (some [aPng, bPng])).1.files = [] ∧
    (handleFiles dzSingle (some [aPng, bPng])).1.warning
      = some (localizeTerm "noMultipleFiles") := by
  refine ⟨rfl, by decide, rfl, rfl⟩

/-- C3 amended: for every batch of 2 or more candidates arriving in
single-selection mode, no record is added and the drop-zone warning is
set to the no-multiple-files message, but NO event is emitted — in
particular sl-change does not fire, since the batch is rejected before
the emission point. -/
theorem C3_single_mode_batch_rejected_silently (dz : Dropzone) (files : List JsFile)
    (h1 : dz.maxFiles ≤ 1) (h2 : 2 ≤ files.length) :
    handleFiles dz (some files) =
      ({ dz with warning := some (localizeTerm "noMultipleFiles") }, []) := by
  have hm : ({ dz with warning := none } : Dropzone).multiple = false := by
    simp [Dropzone.multiple]
    omega
  simp only [handleFiles]
  rw [if_neg (by omega : ¬ files.length = 0)]
  rw [if_pos ⟨hm, by omega⟩]

/-- C3 witness: default single-mode dropzone receiving a two-file
batch. -/
theorem C3_single_mode_batch_rejected_silently_witness :
    handleFiles dzSingle (some [aPng, bPng]) =
      ({ dzSingle with warning := some (localizeTerm "noMultipleFiles") }, []) :=
  C3_single_mode_batch_rejected_silently dzSingle [aPng, bPng] (by decide) (by decide)

/-- C2 counterexample: with maxFiles = 1, dropping a.png and then b.png
leaves the queue holding the record for a.png — the second add is
refused with the max-files warning, it does not replace the existing
record with b.png. -/
theorem C2_counterexample :
    ((handleFiles (handleFiles dzSingle (some [aPng])).1 (some [bPng])).1.files.map
        (fun fi => fi.file.name) = ["a.png"]) ∧
    ((handleFiles (handleFiles dzSingle (some [aPng])).1 (some [bPng])).1.files.map
        (fun fi => fi.file.name) ≠ ["b.png"]) ∧
    ((handleFiles (handleFiles dzSingle (some [aPng])).1 (some [bPng])).1.warning
      = some (localizeTerm "maxFiles")) := by
  refine ⟨rfl, by decide, rfl⟩

/-- C2 amended: in single-selection mode (maxFiles = 1) adding a file to
a store that already holds one record is refused outright: the capacity
guard fires before the replace step, the queue is unchanged and the
drop-zone warning is set to the max-files message, so replacement of an
existing record never happens at capacity 1. -/
theorem C2_at_capacity_add_refused (dz : Dropzone) (f : JsFile)
    (h1 : dz.maxFiles = 1) (h2 : 1 ≤ dz.files.length) :
    addFile dz f = { dz with warning := some (localizeTerm "maxFiles") } := by
  unfold addFile
  rw [if_pos ⟨by omega, by omega⟩]

/-- C2 witness: a single-mode dropzone already holding one record
refuses a second file. -/
theorem C2_at_capacity_add_refused_witness :
    addFile dzOne bPng = { dzOne with warning := some (localizeTerm "maxFiles") } :=
  C2_at_capacity_add_refused dzOne bPng rfl (by decide)

/-- C1: evidence of the code bug.  A dropzone accepting only .png with an
upload url configured receives b.txt: the record is created rejected
(accepted = false, type-not-accepted warning) and yet addFile starts its
upload — loading = true, progress reset to 0, xhr handle stored, i.e.
the rejected record enters the in-progress transfer state, contradicting
the invariant that a Rejected record never enters InProgress. -/
theorem C1_rejected_record_enters_transfer :
    (addFile dzPngUpload bTxt).files =
      [FileInfo.mk bTxt (some false) (some (localizeTerm "fileTypeNotAccepted"))
        true (some 0) (some ())] := by
  decide

end FileDropzone
